import Mathlib

/-!
Verification of the FinanceAi orchestration pipeline against its
natural-language specification.

The Lean definitions below are a shallow embedding of the Python sources:
 - finance_graph.py : the three pipeline stages over the shared state record
   (suggest_budget_agent, web_search_agent, notify_agent);
 - web_search.py    : the bounded polling search loop (get_openai_response,
   product_web_search_entry) with its module-level price_match_found flag;
 - web-search.py    : the older loop variant (modelled as entry_legacy_loop);
 - notify.py        : the notification dispatcher (send_notification).

Language-model replies, spreadsheet contents and the process environment are
inputs the Python code merely consumes, so they appear here as explicit
oracle parameters (already split into the parse outcomes the code branches
on). Python exceptions are modelled with Except, Python dictionary spreads
with structure updates, machine floats with rationals, and the real-time
search loop with an explicit fuel argument so that non-termination of the
source loop is observable as fuel exhaustion.
-/

namespace FinanceAi

/-- Python truthiness of an optional string: None and the empty string are
falsy, every other string is truthy. -/
def optStrTruthy : Option String → Bool
  | none => false
  | some s => !s.isEmpty

/-- Python rendering of an optional string inside an f-string: None prints
as the text None. -/
def optShow : Option String → String
  | none => "None"
  | some s => s

/-- Whether the list `needle` stands at the very start of `hay`
(character-by-character comparison, as Python string slicing would see it). -/
def startsWith {α : Type} [DecidableEq α] : List α → List α → Bool
  | [], _ => true
  | _ :: _, [] => false
  | a :: as, b :: bs => a = b && startsWith as bs

/-- Whether `needle` occurs contiguously anywhere in `hay`: the semantics of
the Python expression needle in hay on strings. -/
def containsSeg {α : Type} [DecidableEq α] (needle : List α) : List α → Bool
  | [] => needle.isEmpty
  | c :: cs => startsWith needle (c :: cs) || containsSeg needle cs

/-- Python substring test s1 in s2. -/
def containsSub (needle hay : String) : Bool :=
  containsSeg needle.toList hay.toList

theorem startsWith_append {α : Type} [DecidableEq α] (l t : List α) :
    startsWith l (l ++ t) = true := by
  induction l with
  | nil => rfl
  | cons a as ih => simp [startsWith, ih]

theorem containsSeg_self_append {α : Type} [DecidableEq α] (mid post : List α) :
    containsSeg mid (mid ++ post) = true := by
  cases hm : mid ++ post with
  | nil =>
      rcases List.append_eq_nil.mp hm with ⟨h1, h2⟩
      subst h1; subst h2; rfl
  | cons c cs =>
      have : startsWith mid (c :: cs) = true := by
        rw [← hm]; exact startsWith_append mid post
      simp [containsSeg, this]

theorem containsSeg_middle {α : Type} [DecidableEq α] (pre mid post : List α) :
    containsSeg mid (pre ++ mid ++ post) = true := by
  induction pre with
  | nil => simpa using containsSeg_self_append mid post
  | cons a pre ih =>
      have ih' : containsSeg mid (pre ++ (mid ++ post)) = true := by
        simpa [List.append_assoc] using ih
      simp [containsSeg, ih']

-- ---------------------------------------------------------------------------
-- Pipeline state (finance_graph.py, class FinanceState, total=False TypedDict)
-- ---------------------------------------------------------------------------

/-- A structured result recorded by web_search_agent in finance_graph.py:
either the Found dictionary (product_name, price, url, message) or a plain
string (above-cap notices, parse errors, unknown tools, plain model text,
API failures). -/
inductive FGSearchResult where
  | found (product_name : Option String) (price : ℚ) (url : Option String)
      (message : String)
  | text (s : String)
deriving Repr, DecidableEq

/-- The LangGraph state record of finance_graph.py. Every key of the
total=False TypedDict may be absent, hence the Option types. -/
structure FinanceState where
  product : Option String := none
  timeframe : Option String := none
  financials_path : Option String := none
  suggested_budget : Option ℚ := none
  search_result : Option FGSearchResult := none
  notification_sent : Option Bool := none
deriving Repr, DecidableEq

-- ---------------------------------------------------------------------------
-- Stage 1: BudgetAdvisor (finance_graph.py suggest_budget_agent, and the
-- identical parse-and-clamp step of suggest_budget.py main)
-- ---------------------------------------------------------------------------

/-- The oracle inputs suggest_budget_agent consumes: whether OPENAI_API_KEY
is set, the outcome of load_financials when a path is supplied, the parse
outcome of the reference-price reply (lookup_max_price_via_llm: none when
the reply was unparseable), and the parse outcome of the budget reply
(none when float(raw) raised ValueError). -/
structure BudgetOracle where
  apiKeyPresent : Bool
  financialsLoad : Except String Unit
  refPriceReply : Option ℚ
  budgetReply : Option ℚ

/-- finance_graph.py suggest_budget_agent: read product and timeframe
(a missing key raises KeyError), check the credential, load the financial
records when a truthy path is present, parse the two model replies, clamp
the recommended value to the reference price when one is known, and return
the input state extended with suggested_budget. -/
def suggest_budget_agent (o : BudgetOracle) (s : FinanceState) :
    Except String FinanceState :=
  match s.product, s.timeframe with
  | some _, some _ =>
    if !o.apiKeyPresent then .error "OPENAI_API_KEY is not set"
    else
      match (if optStrTruthy s.financials_path then o.financialsLoad
             else .ok ()) with
      | .error e => .error ("ERROR reading financials: " ++ e)
      | .ok _ =>
        match o.budgetReply with
        | none => .error "Unexpected response"
        | some val =>
          let clamped :=
            match o.refPriceReply with
            | some maxPrice => if val > maxPrice then maxPrice else val
            | none => val
          .ok { s with suggested_budget := some clamped }
  | _, _ => .error "KeyError"

theorem clamp_eq_min (val maxPrice : ℚ) :
    (if val > maxPrice then maxPrice else val) = min val maxPrice := by
  rcases le_or_lt val maxPrice with h | h
  · simp [not_lt.mpr h, min_eq_left h]
  · simp [h, min_eq_right h.le]

/-- C1: with a parsed recommended value and a known reference price the
budget stage returns min(parsedValue, referencePrice), which is never above
the reference price; with no reference price the parsed value passes
through unmodified. -/
theorem c1_budget_clamp (o : BudgetOracle) (s : FinanceState)
    (val : ℚ)
    (hkey : o.apiKeyPresent = true)
    (hfin : optStrTruthy s.financials_path = false ∨ o.financialsLoad = .ok ())
    (hprod : s.product.isSome = true) (htf : s.timeframe.isSome = true)
    (hval : o.budgetReply = some val) :
    (∀ maxPrice : ℚ, o.refPriceReply = some maxPrice →
        suggest_budget_agent o s
          = .ok { s with suggested_budget := some (min val maxPrice) }
        ∧ min val maxPrice ≤ maxPrice)
    ∧ (o.refPriceReply = none →
        suggest_budget_agent o s = .ok { s with suggested_budget := some val }) := by
  rcases Option.isSome_iff_exists.mp hprod with ⟨p, hp⟩
  rcases Option.isSome_iff_exists.mp htf with ⟨t, ht⟩
  have hload : (if optStrTruthy s.financials_path then o.financialsLoad
      else .ok ()) = .ok () := by
    rcases hfin with h | h
    · simp [h]
    · rcases hb : optStrTruthy s.financials_path <;> simp [h]
  constructor
  · intro maxPrice href
    refine ⟨?_, min_le_right _ _⟩
    simp [suggest_budget_agent, hp, ht, hkey, hload, hval, href, clamp_eq_min]
  · intro href
    simp [suggest_budget_agent, hp, ht, hkey, hload, hval, href]

/-- Witness for C1 at a concrete oracle: reference price 800, recommended
value 950, the clamp yields 800. -/
theorem c1_budget_clamp_witness :
    suggest_budget_agent
        ⟨true, .ok (), some 800, some 950⟩
        { product := some "iPhone", timeframe := some "2025-10-21" }
      = .ok { product := some "iPhone", timeframe := some "2025-10-21",
              suggested_budget := some (min 950 800) }
    ∧ (950 : ℚ) ≥ min 950 800 := by
  have h := c1_budget_clamp
    ⟨true, .ok (), some 800, some 950⟩
    { product := some "iPhone", timeframe := some "2025-10-21" }
    950 rfl (Or.inl rfl) rfl rfl rfl
  exact ⟨(h.1 800 rfl).1, by norm_num⟩

-- ---------------------------------------------------------------------------
-- The search loop of web_search.py
-- ---------------------------------------------------------------------------

/-- The JSON arguments of a record_product_found tool call, already run
through json.loads and the three args.get lookups: each field may be absent,
and the whole payload may have failed to decode (json.JSONDecodeError). -/
inductive ToolArgs where
  | ok (product_name : Option String) (price : Option ℚ) (url : Option String)
  | malformed
deriving Repr, DecidableEq

/-- One entry of ai_message.tool_calls: the function name the model asked
for and its argument payload. -/
structure ToolCall where
  name : String
  args : ToolArgs
deriving Repr, DecidableEq

/-- One model reply as get_openai_response branches on it: a tool_calls list
(with the content of the follow-up completion made after a rejected call),
a plain text reply, an openai.APIError, or any other exception. -/
inductive AiReply where
  | tools (calls : List ToolCall) (followUp : String)
  | text (content : String)
  | apiError (detail : String)
  | otherError (detail : String)
deriving Repr, DecidableEq

/-- What one call to get_openai_response returns: the Found-shaped
dictionary (product_name, price, url, message), a message-only dictionary,
the bare error string of the two except branches, or Python None (the
fall-through when every tool call was skipped by the blocked-URL
continue). -/
inductive CycleResult where
  | found (product_name : Option String) (price : Option ℚ) (url : String)
      (message : String)
  | msg (m : String)
  | errStr (m : String)
  | pyNone
deriving Repr, DecidableEq

/-- The observable events of one cycle: the above-cap-or-missing-url
rejection notice, the blocked-URL skip, and the accepted match. -/
inductive SearchEvent where
  | aboveCapOrMissingUrl
  | blockedSkip (url : String)
  | accepted (url : String)
deriving Repr, DecidableEq

/-- web_search.py is_blocked_url: any(domain in url for domain in
BLOCKED_DOMAINS). The configured list BLOCKED_DOMAINS is a parameter here
(its configured value in the source is the empty list). -/
def is_blocked_url (blockedDomains : List String) (url : String) : Bool :=
  blockedDomains.any (fun domain => containsSub domain url)

/-- The price test of the accept condition
price is not None and price <= current_search_price_cap. -/
def priceWithinCap (cap : ℚ) : Option ℚ → Bool
  | none => false
  | some p => p ≤ cap

/-- handle_price_match returns this string; it becomes the message field of
the accepted Found dictionary. -/
def acceptMsg : String := "Price match handled successfully by Python code."

/-- The for-loop over ai_message.tool_calls. Every branch returns on the
spot except the blocked-URL branch, whose continue moves to the next tool
call. Besides the returned value we record whether price_match_found was
set and the cycle events. -/
def processToolCalls (blocked : List String) (cap : ℚ) (followUp : String) :
    List ToolCall → CycleResult × Bool × List SearchEvent
  | [] => (.pyNone, false, [])
  | c :: rest =>
    if c.name = "record_product_found" then
      match c.args with
      | .malformed =>
          (.msg "AI attempted to call tool, but arguments were malformed.",
           false, [])
      | .ok pn p u =>
        if priceWithinCap cap p && optStrTruthy u then
          if is_blocked_url blocked (u.getD "") then
            let r := processToolCalls blocked cap followUp rest
            (r.1, r.2.1, .blockedSkip (u.getD "") :: r.2.2)
          else
            (.found pn p (u.getD "") acceptMsg, true, [.accepted (u.getD "")])
        else
          (.msg followUp, false, [.aboveCapOrMissingUrl])
    else
      (.msg ("AI requested an unknown tool: " ++ c.name), false, [])

/-- Characters the regex class of a backslash-S rejects (Python re
whitespace). -/
def isSpaceChar (c : Char) : Bool :=
  c = ' ' || c = '\t' || c = '\n' || c = '\r' || c = '\x0b' || c = '\x0c'

/-- The maximal run of non-whitespace characters at the front of the list:
the greedy tail of the regex match. -/
def takeNonSpace : List Char → List Char
  | [] => []
  | c :: cs => if isSpaceChar c then [] else c :: takeNonSpace cs

/-- Leftmost match of the regex https?://S+ (with S+ the non-whitespace
class) over the character list. -/
def findUrl : List Char → Option (List Char)
  | [] => none
  | c :: cs =>
    if startsWith "http://".toList (c :: cs)
        || startsWith "https://".toList (c :: cs) then
      some (takeNonSpace (c :: cs))
    else findUrl cs

/-- re.search of the URL pattern over a plain-text reply, as in the
fallback branch of get_openai_response. -/
def extractUrl (s : String) : Option String :=
  (findUrl s.toList).map List.asString

/-- web_search.py get_openai_response, as a function of the (already
parsed) model reply: the returned value, whether the global
price_match_found flag was set during the call, and the cycle events. -/
def get_openai_response (blocked : List String) (cap : ℚ) (ctxProduct : String) :
    AiReply → CycleResult × Bool × List SearchEvent
  | .tools calls followUp => processToolCalls blocked cap followUp calls
  | .text content =>
    match extractUrl content with
    | none => (.msg content, false, [])
    | some url =>
      if is_blocked_url blocked url then
        (.msg ("Found a link, but it is blocked: " ++ url), false, [])
      else
        (.found (some ctxProduct) none url content, false, [])
  | .apiError _ =>
      (.errStr "Sorry, I encountered an error communicating with OpenAI.",
       false, [])
  | .otherError _ =>
      (.errStr "An unexpected error occurred. Please try again.", false, [])

/-- Whether one cycle sets the price_match_found flag. -/
def setsFlag (blocked : List String) (cap : ℚ) (ctxProduct : String)
    (reply : AiReply) : Bool :=
  (get_openai_response blocked cap ctxProduct reply).2.1

/-- The observable outcome of running the while-loop of
product_web_search_entry for a bounded number of iterations (the fuel):
whether the loop has exited, how many search attempts (loop bodies) ran,
how many inter-cycle 24-hour waits happened, and the final value of the
price_match_found flag. -/
structure RunOutcome where
  terminated : Bool
  attempts : ℕ
  waits : ℕ
  flag : Bool
deriving Repr, DecidableEq

/-- The while-loop of web_search.py product_web_search_entry. The source
condition is while not price_match_found; days_passed only selects between
the sleep and the Search-duration-completed print, it never exits the loop.
Fuel bounds how many top-of-loop checks we run: a loop still running when
fuel is exhausted yields terminated = false. -/
def entryRun (blocked : List String) (cap : ℚ) (product : String)
    (replies : ℕ → AiReply) (durationDays : ℕ)
    (flag : Bool) (daysPassed attempts waits : ℕ) : ℕ → RunOutcome
  | 0 => ⟨flag, attempts, waits, flag⟩
  | fuel + 1 =>
    if flag then ⟨true, attempts, waits, flag⟩
    else
      let stepFlag := setsFlag blocked cap product (replies daysPassed)
      let flagNext := flag || stepFlag
      let dNext := daysPassed + 1
      let waitsNext := if dNext < durationDays && !flagNext then waits + 1 else waits
      entryRun blocked cap product replies durationDays
        flagNext dNext (attempts + 1) waitsNext fuel

/-- web_search.py product_web_search_entry: run the loop from
days_passed = 0 with the current value of the module-level
price_match_found flag. -/
def product_web_search_entry (blocked : List String) (cap : ℚ)
    (product : String) (replies : ℕ → AiReply) (durationDays : ℕ)
    (flag : Bool) (fuel : ℕ) : RunOutcome :=
  entryRun blocked cap product replies durationDays flag 0 0 0 fuel

/-- The loop of the older variant web-search.py product_web_search_entry:
while days_passed < duration_days, one attempt per iteration, with no
early exit of any kind (its handle_price_match sets no flag and the loop
condition never consults the cycle result). Returns the number of
attempts. -/
def entry_legacy_loop (durationDays daysPassed attempts : ℕ) : ℕ :=
  if daysPassed < durationDays then
    entry_legacy_loop durationDays (daysPassed + 1) (attempts + 1)
  else attempts
termination_by durationDays - daysPassed

-- ---------------------------------------------------------------------------
-- Theorems about the search loop
-- ---------------------------------------------------------------------------

theorem entryRun_nomatch (blocked : List String) (cap : ℚ) (product : String)
    (replies : ℕ → AiReply) (durationDays : ℕ)
    (h : ∀ i, setsFlag blocked cap product (replies i) = false) :
    ∀ fuel daysPassed attempts waits,
      (entryRun blocked cap product replies durationDays
          false daysPassed attempts waits fuel).terminated = false
      ∧ (entryRun blocked cap product replies durationDays
          false daysPassed attempts waits fuel).attempts = attempts + fuel := by
  intro fuel
  induction fuel with
  | zero => intro d a w; exact ⟨rfl, rfl⟩
  | succ n ih =>
      intro d a w
      have hs := h d
      simp only [entryRun, hs, Bool.false_eq_true, if_false, Bool.or_false]
      refine ⟨(ih (d + 1) (a + 1) _).1, ?_⟩
      rw [(ih (d + 1) (a + 1) _).2]
      omega

theorem entry_legacy_loop_attempts :
    ∀ k durationDays daysPassed attempts, durationDays - daysPassed = k →
      entry_legacy_loop durationDays daysPassed attempts = attempts + k := by
  intro k
  induction k with
  | zero =>
      intro N d a h
      rw [entry_legacy_loop, if_neg (by omega)]
      omega
  | succ k ih =>
      intro N d a h
      rw [entry_legacy_loop, if_pos (by omega), ih N (d + 1) (a + 1) (by omega)]
      omega

/-- C2: the claimed loop bound fails in web_search.py: its while condition
consults only price_match_found, so a run in which no cycle matches keeps
attempting past maxCycles = 1 and never reaches an Exhausted exit (first
two conjuncts: after any amount of fuel the loop is still running, with one
attempt per fuel unit). The early-exit half does hold there: a first match
on cycle 2 of a 3-day search stops after exactly 2 attempts and 1 wait
(third conjunct). The older variant web-search.py always performs exactly
durationDays attempts whatever the cycles produce (fourth conjunct), so no
run of either file exhibits both claimed behaviours. -/
theorem c2_loop_termination_bug :
    (∀ fuel : ℕ,
        (product_web_search_entry [] 1300 "laptop"
            (fun _ => .text "No matching listing found today.") 1 false
            fuel).terminated = false
        ∧ (product_web_search_entry [] 1300 "laptop"
            (fun _ => .text "No matching listing found today.") 1 false
            fuel).attempts = fuel)
    ∧ product_web_search_entry [] 1300 "laptop"
        (fun _ => .text "No matching listing found today.") 1 false 4
        = ⟨false, 4, 0, false⟩
    ∧ product_web_search_entry [] 1300 "laptop"
        (fun i => if i = 1 then
            .tools [⟨"record_product_found",
              .ok (some "laptop") (some 1200) (some "https://shop.example/a")⟩]
              "ok"
          else .text "No matching listing found today.") 3 false 10
        = ⟨true, 2, 1, true⟩
    ∧ (∀ n : ℕ, entry_legacy_loop n 0 0 = n) := by
  refine ⟨?_, by decide, by decide, ?_⟩
  · intro fuel
    have h : ∀ i : ℕ, setsFlag [] 1300 "laptop"
        ((fun _ => AiReply.text "No matching listing found today.") i) = false := by
      intro i
      show setsFlag [] 1300 "laptop"
        (AiReply.text "No matching listing found today.") = false
      decide
    simpa using entryRun_nomatch [] 1300 "laptop"
      (fun _ => .text "No matching listing found today.") 1 h fuel 0 0 0
  · intro n
    rw [entry_legacy_loop_attempts n n 0 0 (by omega)]
    omega

/-- C10: the price_match_found flag is process-global and never reset.
First conjunct: any call of product_web_search_entry that starts with the
flag already true performs zero search attempts, zero waits, and returns
at once with the flag still true, whatever its product, cap, replies,
duration or fuel. Second conjunct: a call whose first cycle accepts a
match ends with the flag true after exactly one attempt. Third conjunct:
an accepting cycle sets the flag. -/
theorem c10_price_match_flag_sticky :
    (∀ (blocked : List String) (cap : ℚ) (product : String)
        (replies : ℕ → AiReply) (durationDays fuel : ℕ),
        product_web_search_entry blocked cap product replies durationDays
          true fuel = ⟨true, 0, 0, true⟩)
    ∧ product_web_search_entry [] 1300 "laptop"
        (fun _ => .tools [⟨"record_product_found",
          .ok (some "laptop") (some 1200) (some "https://shop.example/a")⟩]
          "ok") 5 false 10
        = ⟨true, 1, 0, true⟩
    ∧ setsFlag [] 1300 "laptop"
        (.tools [⟨"record_product_found",
          .ok (some "laptop") (some 1200) (some "https://shop.example/a")⟩]
          "ok") = true := by
  refine ⟨?_, by decide, by decide⟩
  intro blocked cap product replies durationDays fuel
  cases fuel <;> rfl

theorem processToolCalls_found_not_blocked (blocked : List String) (cap : ℚ)
    (followUp : String) :
    ∀ (calls : List ToolCall) (pn : Option String) (p : Option ℚ)
      (url m : String),
      (processToolCalls blocked cap followUp calls).1 = .found pn p url m →
      is_blocked_url blocked url = false := by
  intro calls
  induction calls with
  | nil => intro pn p url m h; simp [processToolCalls] at h
  | cons c rest ih =>
      intro pn p url m h
      by_cases hn : c.name = "record_product_found"
      · cases hargs : c.args with
        | malformed => simp [processToolCalls, hn, hargs] at h
        | ok pn0 p0 u0 =>
            by_cases hcond : (priceWithinCap cap p0 && optStrTruthy u0) = true
            · by_cases hb : is_blocked_url blocked (u0.getD "") = true
              · simp only [processToolCalls, hn, if_pos rfl, hargs, hcond,
                  if_true, hb] at h
                exact ih pn p url m h
              · simp [processToolCalls, hn, hargs, hcond, hb] at h
                rw [← h.2.2.1]
                simpa using hb
            · simp [processToolCalls, hn, hargs, hcond] at h
      · simp [processToolCalls, hn] at h

/-- C3: block-list enforcement in web_search.py. First conjunct: whatever
the model reply, a cycle of get_openai_response never returns a Found-shaped
result whose url is blocked — so a candidate whose URL host is on the
block-list (second conjunct: such a URL always tests as blocked, since the
host is a substring of the rendered URL) is never surfaced as Found,
regardless of its price. -/
theorem c3_blocklist_enforcement (blocked : List String) (cap : ℚ)
    (ctxProduct : String) :
    (∀ (reply : AiReply) (pn : Option String) (p : Option ℚ) (url m : String),
        (get_openai_response blocked cap ctxProduct reply).1 = .found pn p url m →
        is_blocked_url blocked url = false)
    ∧ (∀ scheme host rest : String, host ∈ blocked →
        is_blocked_url blocked (scheme ++ host ++ rest) = true) := by
  constructor
  · intro reply pn p url m h
    cases reply with
    | tools calls followUp =>
        exact processToolCalls_found_not_blocked blocked cap followUp calls
          pn p url m h
    | text content =>
        cases hu : extractUrl content with
        | none => simp [get_openai_response, hu] at h
        | some url0 =>
            by_cases hb : is_blocked_url blocked url0 = true
            · simp [get_openai_response, hu, hb] at h
            · simp [get_openai_response, hu, hb] at h
              rw [← h.2.2.1]
              simpa using hb
    | apiError d => simp [get_openai_response] at h
    | otherError d => simp [get_openai_response] at h
  · intro scheme host rest hmem
    refine List.any_eq_true.mpr ⟨host, hmem, ?_⟩
    have : (scheme ++ host ++ rest).toList
        = scheme.toList ++ host.toList ++ rest.toList := by
      simp [String.toList]
    rw [containsSub, this]
    exact containsSeg_middle scheme.toList host.toList rest.toList

/-- Witness for C3: a cycle that accepts an unblocked listing while
evil.com is on the block-list, and a URL whose host is evil.com always
testing as blocked. -/
theorem c3_blocklist_enforcement_witness :
    is_blocked_url ["evil.com"] "https://shop.example/a" = false
    ∧ is_blocked_url ["evil.com"] ("https://" ++ "evil.com" ++ "/promo") = true := by
  constructor
  · exact (c3_blocklist_enforcement ["evil.com"] 1300 "laptop").1
      (.tools [⟨"record_product_found",
        .ok (some "laptop") (some 1200) (some "https://shop.example/a")⟩] "ok")
      (some "laptop") (some 1200) "https://shop.example/a" acceptMsg (by decide)
  · exact (c3_blocklist_enforcement ["evil.com"] 1300 "laptop").2
      "https://" "evil.com" "/promo" (by decide)

-- ---------------------------------------------------------------------------
-- Stage 2 of the graph: finance_graph.py web_search_agent
-- ---------------------------------------------------------------------------

/-- One model reply as web_search_agent branches on it. Its for-loop over
ai_message.tool_calls returns inside every branch of its first iteration,
so a nonempty tool_calls list is observationally its first element. -/
inductive FGReply where
  | toolCall (c : ToolCall)
  | text (content : String)
  | failure (e : String)
deriving Repr, DecidableEq

/-- Python rendering of an optional number inside an f-string. -/
def optShowQ : Option ℚ → String
  | none => "None"
  | some p => toString p

/-- The message field of the Found dictionary built by web_search_agent. -/
def foundMsg (pn : Option String) (p : ℚ) (u : Option String) : String :=
  "Found " ++ optShow pn ++ " for $" ++ toString p ++ " at " ++ optShow u

/-- The above-cap string recorded by web_search_agent. -/
def aboveCapMsg (pn : Option String) (p : Option ℚ) (cap : ℚ) : String :=
  "Product '" ++ optShow pn ++ "' found at $" ++ optShowQ p
    ++ ", but it's above the cap of $" ++ toString cap ++ "."

/-- The search_result value web_search_agent stores for one reply: the
Found dictionary when the tool call carries a price at or below the cap
(the url is not examined), and a plain string in every other branch
(above-cap or missing price, malformed arguments, unknown tool, plain
text reply, exception during the API call). -/
def fg_cycle_result (cap : ℚ) : FGReply → FGSearchResult
  | .toolCall c =>
    if c.name = "record_product_found" then
      match c.args with
      | .ok pn p u =>
        match p with
        | some pv =>
          if pv ≤ cap then .found pn pv u (foundMsg pn pv u)
          else .text (aboveCapMsg pn (some pv) cap)
        | none => .text (aboveCapMsg pn none cap)
      | .malformed => .text "Error parsing tool call arguments."
    else .text ("AI requested an unknown tool: " ++ c.name)
  | .text content => .text content
  | .failure e => .text ("Error during OpenAI web search: " ++ e)

/-- finance_graph.py web_search_agent: read product, suggested_budget and
timeframe (KeyError when absent), check the credential, then return the
input state extended with the cycle's search_result. -/
def web_search_agent (apiKeyPresent : Bool) (reply : FGReply)
    (s : FinanceState) : Except String FinanceState :=
  match s.product, s.suggested_budget, s.timeframe with
  | some _, some cap, some _ =>
    if !apiKeyPresent then .error "OPENAI_API_KEY is not set"
    else .ok { s with search_result := some (fg_cycle_result cap reply) }
  | _, _, _ => .error "KeyError"

/-- Whether a stored search_result is the Found dictionary. -/
def isFoundShaped : Option FGSearchResult → Bool
  | some (.found _ _ _ _) => true
  | _ => false

/-- The search_result a stage call produced, when it produced a state. -/
def fgSearchResultOf : Except String FinanceState → Option FGSearchResult
  | .ok s => s.search_result
  | .error _ => none

-- ---------------------------------------------------------------------------
-- notify.py: the notification dispatcher
-- ---------------------------------------------------------------------------

/-- The process environment and email collaborator notify.py consumes:
the configured OPENAI_API_KEY shared secret (None when unset), whether
Resend is importable and RESEND_API_KEY is set, and the outcome of
resend.Emails.send when it is attempted. -/
structure NotifyEnv where
  configuredKey : Option String
  resendConfigured : Bool
  emailSend : Except String Unit

/-- Python falsiness of the configured secret: unset or empty. -/
def keyFalsy : Option String → Bool
  | none => true
  | some k => k.isEmpty

/-- notify.py _validate_api_key: RuntimeError when the process has no
configured secret, PermissionError when the supplied one differs. -/
def validate_api_key (configured provided : Option String) :
    Except String Unit :=
  if keyFalsy configured then
    .error "OPENAI_API_KEY is not set on this machine; cannot authorise caller."
  else if provided ≠ configured then
    .error "API key mismatch – notification aborted."
  else .ok ()

/-- notify.py _send_email: RuntimeError when Resend is not configured,
otherwise the send outcome. -/
def send_email (env : NotifyEnv) : Except String Unit :=
  if !env.resendConfigured then .error "Resend not configured; cannot send email."
  else env.emailSend

/-- A notification actually emitted: an email through Resend, or the
textual rendering printed by _print_stdout. -/
inductive Delivery where
  | email (target : String)
  | stdout (contact : Option String)
deriving Repr, DecidableEq

/-- The channel-selection test use_email and user_contact and "@" in
user_contact. -/
def contactEmailable : Option String → Bool
  | none => false
  | some c => !c.isEmpty && c.toList.any (fun ch => ch == '@')

/-- The body of notify.py send_notification before its outer try/except:
validate the secret (exceptions propagate as .error), then emit through
the email channel with textual fallback, or directly through stdout.
Returns the boolean result together with the deliveries emitted. -/
def send_notification_body (env : NotifyEnv) (product : String) (price : ℚ)
    (links : String ⊕ List String) (user_contact : Option String)
    (api_key : Option String) (use_email : Bool) :
    Except String (Bool × List Delivery) :=
  match validate_api_key env.configuredKey api_key with
  | .error e => .error e
  | .ok _ =>
    let _link_list := match links with | .inl s => [s] | .inr l => l
    if use_email && contactEmailable user_contact then
      match send_email env with
      | .ok _ => .ok (true, [.email (user_contact.getD "")])
      | .error _ => .ok (true, [.stdout user_contact])
    else .ok (true, [.stdout user_contact])

/-- notify.py send_notification: the body under the catch-all except that
prints a diagnostic and returns False. The caller always receives a
boolean, never an exception. -/
def send_notification (env : NotifyEnv) (product : String) (price : ℚ)
    (links : String ⊕ List String) (user_contact : Option String)
    (api_key : Option String) (use_email : Bool) : Bool × List Delivery :=
  match send_notification_body env product price links user_contact
      api_key use_email with
  | .ok r => r
  | .error _ => (false, [])

-- ---------------------------------------------------------------------------
-- Stage 3 of the graph: finance_graph.py notify_agent
-- ---------------------------------------------------------------------------

/-- The arguments notify_agent passes to send_notification when it
dispatches. -/
structure SendCall where
  product : String
  price : ℚ
  links : List String
deriving Repr, DecidableEq

/-- finance_graph.py notify_agent: extract product name, price and links
from search_result (a non-dictionary result contributes no price and no
links), substitute suggested_budget (default 0.0) for a missing price,
and call send_notification only when both product name and price are
truthy, with user_contact None and use_email False. Returns the updated
state and the dispatch call, if one was made. -/
def notify_agent (env : NotifyEnv) (s : FinanceState) :
    FinanceState × Option SendCall :=
  let extracted : Option String × Option ℚ × List String :=
    match s.search_result with
    | some (.found pn p u _) =>
        (pn, some p,
         match u with
         | some url => if url.isEmpty then [] else [url]
         | none => [])
    | some (.text _) => (s.product, none, [])
    | none => (s.product, none, [])
  let product_name := extracted.1
  let links := extracted.2.2
  let price : ℚ :=
    match extracted.2.1 with
    | some p => p
    | none => (s.suggested_budget).getD 0
  let dispatch : Bool × Option SendCall :=
    if optStrTruthy product_name && decide (price ≠ 0) then
      ((send_notification env (product_name.getD "") price (.inr links)
          none env.configuredKey false).1,
       some ⟨product_name.getD "", price, links⟩)
    else (false, none)
  ({ s with notification_sent := some dispatch.1 }, dispatch.2)

-- ---------------------------------------------------------------------------
-- Theorems about tool-call handling, the frame property and notification
-- ---------------------------------------------------------------------------

/-- C4 counterexample: in finance_graph.py web_search_agent a
record_product_found invocation with price 50 at or below the cap 100 but
with the url absent is accepted as a Found-shaped result, not recorded as
an AboveCap rejection as the claim states. -/
theorem c4_counterexample_url_absent_accepted :
    isFoundShaped (fgSearchResultOf (web_search_agent true
        (.toolCall ⟨"record_product_found",
          .ok (some "Sony WH-1000XM5") (some 50) none⟩)
        { product := some "headphones", timeframe := some "2025-10-21",
          suggested_budget := some 100 })) = true := by
  decide

/-- C4 amended: in web_search.py a record_product_found invocation with a
present price at or below the cap and a truthy url, not blocked, is
accepted: the cycle returns the Found dictionary, sets the
price_match_found flag and records the acceptance (first conjunct); when
the price is absent, above the cap, or the url is absent or empty, the
cycle records the above-cap rejection and does not set the flag, so the
loop continues (second conjunct). In finance_graph.py web_search_agent the
url is never examined: the invocation yields a Found-shaped result exactly
when a price is present and at or below the cap (third conjunct). -/
theorem c4_record_tool_handling (blocked : List String) (cap : ℚ)
    (ctxProduct followUp : String) :
    (∀ (pn : Option String) (p : Option ℚ) (u : Option String)
        (rest : List ToolCall),
        (priceWithinCap cap p && optStrTruthy u) = true →
        is_blocked_url blocked (u.getD "") = false →
        get_openai_response blocked cap ctxProduct
            (.tools (⟨"record_product_found", .ok pn p u⟩ :: rest) followUp)
          = (.found pn p (u.getD "") acceptMsg, true, [.accepted (u.getD "")]))
    ∧ (∀ (pn : Option String) (p : Option ℚ) (u : Option String)
        (rest : List ToolCall),
        (priceWithinCap cap p && optStrTruthy u) = false →
        get_openai_response blocked cap ctxProduct
            (.tools (⟨"record_product_found", .ok pn p u⟩ :: rest) followUp)
          = (.msg followUp, false, [.aboveCapOrMissingUrl]))
    ∧ (∀ (cap2 : ℚ) (pn : Option String) (p : Option ℚ) (u : Option String)
        (pr tf : String) (fp : Option String) (sr : Option FGSearchResult)
        (ns : Option Bool),
        isFoundShaped (fgSearchResultOf (web_search_agent true
            (.toolCall ⟨"record_product_found", .ok pn p u⟩)
            ⟨some pr, some tf, fp, some cap2, sr, ns⟩))
          = priceWithinCap cap2 p) := by
  refine ⟨?_, ?_, ?_⟩
  · intro pn p u rest hcond hb
    simp [get_openai_response, processToolCalls, hcond, hb]
  · intro pn p u rest hcond
    simp [get_openai_response, processToolCalls, hcond]
  · intro cap2 pn p u pr tf fp sr ns
    cases p with
    | none => simp [web_search_agent, fg_cycle_result, fgSearchResultOf,
        isFoundShaped, priceWithinCap]
    | some pv =>
        by_cases hle : pv ≤ cap2
        · simp [web_search_agent, fg_cycle_result, fgSearchResultOf,
            isFoundShaped, priceWithinCap, hle]
        · simp [web_search_agent, fg_cycle_result, fgSearchResultOf,
            isFoundShaped, priceWithinCap, hle]

/-- Witness for C4: an accepted call, a rejected above-cap call, and the
finance_graph acceptance computed at a concrete state. -/
theorem c4_record_tool_handling_witness :
    get_openai_response [] 100 "headphones"
        (.tools [⟨"record_product_found",
          .ok (some "WH-1000XM5") (some 50) (some "https://shop.example/a")⟩]
          "keep searching")
      = (.found (some "WH-1000XM5") (some 50) "https://shop.example/a"
          acceptMsg, true, [.accepted "https://shop.example/a"])
    ∧ get_openai_response [] 100 "headphones"
        (.tools [⟨"record_product_found",
          .ok (some "WH-1000XM5") (some 250) (some "https://shop.example/a")⟩]
          "keep searching")
      = (.msg "keep searching", false, [.aboveCapOrMissingUrl]) := by
  constructor
  · exact (c4_record_tool_handling [] 100 "headphones" "keep searching").1
      (some "WH-1000XM5") (some 50) (some "https://shop.example/a") []
      (by decide) (by decide)
  · exact (c4_record_tool_handling [] 100 "headphones" "keep searching").2.1
      (some "WH-1000XM5") (some 250) (some "https://shop.example/a") []
      (by decide)

/-- C5: each stage returns the union of its input state with only its own
newly set fields. The budget stage preserves product, timeframe,
financials_path and search_result; the search stage preserves product,
timeframe, financials_path and suggested_budget; the notify stage
preserves all five earlier fields. -/
theorem c5_stage_frame (o : BudgetOracle) (apiKeyPresent : Bool)
    (reply : FGReply) (env : NotifyEnv) (s s1 s2 : FinanceState)
    (h1 : suggest_budget_agent o s = .ok s1)
    (h2 : web_search_agent apiKeyPresent reply s = .ok s2) :
    (s1.product = s.product ∧ s1.timeframe = s.timeframe
      ∧ s1.financials_path = s.financials_path
      ∧ s1.search_result = s.search_result)
    ∧ (s2.product = s.product ∧ s2.timeframe = s.timeframe
      ∧ s2.financials_path = s.financials_path
      ∧ s2.suggested_budget = s.suggested_budget)
    ∧ ((notify_agent env s).1.product = s.product
      ∧ (notify_agent env s).1.timeframe = s.timeframe
      ∧ (notify_agent env s).1.financials_path = s.financials_path
      ∧ (notify_agent env s).1.suggested_budget = s.suggested_budget
      ∧ (notify_agent env s).1.search_result = s.search_result) := by
  refine ⟨?_, ?_, rfl, rfl, rfl, rfl, rfl⟩
  · unfold suggest_budget_agent at h1
    repeat any_goals split at h1
    any_goals exact (Except.noConfusion h1)
    all_goals simp only [Except.ok.injEq] at h1
    all_goals subst h1
    all_goals exact ⟨rfl, rfl, rfl, rfl⟩
  · unfold web_search_agent at h2
    repeat any_goals split at h2
    any_goals exact (Except.noConfusion h2)
    all_goals simp only [Except.ok.injEq] at h2
    all_goals subst h2
    all_goals exact ⟨rfl, rfl, rfl, rfl⟩

/-- Witness for C5 at a concrete state, oracle and replies. -/
theorem c5_stage_frame_witness :
    (let s : FinanceState :=
        { product := some "airpods 2nd gen", timeframe := some "2025-10-21",
          suggested_budget := some 100 }
     let s1 : FinanceState := { s with suggested_budget := some 50 }
     let s2 : FinanceState :=
        { s with search_result := some (.text "nothing yet") }
     s1.product = s.product ∧ s2.product = s.product
      ∧ (notify_agent ⟨some "k", false, .ok ()⟩ s).1.search_result
          = s.search_result) := by
  have h := c5_stage_frame ⟨true, .ok (), none, some 50⟩ true
      (.text "nothing yet") ⟨some "k", false, .ok ()⟩
      { product := some "airpods 2nd gen", timeframe := some "2025-10-21",
        suggested_budget := some 100 }
      { product := some "airpods 2nd gen", timeframe := some "2025-10-21",
        suggested_budget := some 50 }
      { product := some "airpods 2nd gen", timeframe := some "2025-10-21",
        suggested_budget := some 100,
        search_result := some (.text "nothing yet") }
      rfl rfl
  exact ⟨h.1.1, h.2.1.1, h.2.2.2.2.2.2⟩

theorem validate_api_key_ok_iff (c a : Option String) :
    validate_api_key c a = .ok () ↔ keyFalsy c = false ∧ a = c := by
  unfold validate_api_key
  by_cases h1 : keyFalsy c = true
  · simp [h1]
  · by_cases h2 : a = c <;> simp [h1, h2]

/-- C6: send_notification always hands its caller a boolean (the model
function is total: every exception of the body is caught). It returns true
exactly when the authorization step succeeds; whenever it returns true a
delivery (email or textual fallback) was emitted, and whenever it returns
false nothing was emitted. -/
theorem c6_send_notification_contract (env : NotifyEnv) (product : String)
    (price : ℚ) (links : String ⊕ List String)
    (user_contact api_key : Option String) (use_email : Bool) :
    ((send_notification env product price links user_contact api_key
        use_email).1 = true
      ↔ validate_api_key env.configuredKey api_key = .ok ())
    ∧ ((send_notification env product price links user_contact api_key
        use_email).1 = true →
        (send_notification env product price links user_contact api_key
          use_email).2 ≠ [])
    ∧ ((send_notification env product price links user_contact api_key
        use_email).1 = false →
        (send_notification env product price links user_contact api_key
          use_email).2 = []) := by
  unfold send_notification send_notification_body
  rcases hval : validate_api_key env.configuredKey api_key with e | u
  · simp [hval]
  · cases u
    by_cases hc : (use_email && contactEmailable user_contact) = true
    · rcases hs : send_email env with e | v
      · simp [hval, hc, hs]
      · cases v; simp [hval, hc, hs]
    · simp [hval, hc]

/-- Witness for C6: an authorized stdout-only call returns true and emits
the textual fallback; the iff holds at that input. -/
theorem c6_send_notification_contract_witness :
    (send_notification ⟨some "k", false, .ok ()⟩ "airpods 2nd gen" 120
        (.inr ["https://shop.example/a"]) none (some "k") false).2 ≠ [] := by
  exact (c6_send_notification_contract ⟨some "k", false, .ok ()⟩
      "airpods 2nd gen" 120 (.inr ["https://shop.example/a"]) none (some "k")
      false).2.1 (by decide)

/-- C7: with an absent supplied secret, a mismatched secret, or no
configured secret in the environment, send_notification returns false and
emits no delivery at all. -/
theorem c7_auth_failure_no_delivery (env : NotifyEnv) (product : String)
    (price : ℚ) (links : String ⊕ List String)
    (user_contact api_key : Option String) (use_email : Bool)
    (h : env.configuredKey = none ∨ env.configuredKey = some ""
        ∨ api_key ≠ env.configuredKey) :
    send_notification env product price links user_contact api_key use_email
      = (false, []) := by
  have hne : validate_api_key env.configuredKey api_key ≠ .ok () := by
    intro hok
    rcases (validate_api_key_ok_iff _ _).mp hok with ⟨hf, he⟩
    rcases h with h | h | h
    · rw [h] at hf; simp [keyFalsy] at hf
    · rw [h] at hf; simp [keyFalsy, String.isEmpty] at hf
    · exact h he
  unfold send_notification send_notification_body
  rcases hval : validate_api_key env.configuredKey api_key with e | u
  · simp [hval]
  · cases u; exact absurd hval hne

/-- Witness for C7: a mismatched secret yields false and no delivery. -/
theorem c7_auth_failure_no_delivery_witness :
    send_notification ⟨some "secret", true, .ok ()⟩ "airpods 2nd gen" 120
        (.inr []) (some "u@example.com") (some "wrong") true
      = (false, []) := by
  exact c7_auth_failure_no_delivery ⟨some "secret", true, .ok ()⟩
    "airpods 2nd gen" 120 (.inr []) (some "u@example.com") (some "wrong") true
    (Or.inr (Or.inr (by decide)))

/-- C8: an authorized call with use_email and an email-capable contact
whose email send attempt raises still returns true, through the textual
fallback delivery. -/
theorem c8_email_failure_falls_back (env : NotifyEnv) (product : String)
    (price : ℚ) (links : String ⊕ List String) (contact : String)
    (api_key : Option String) (emsg : String)
    (hval : validate_api_key env.configuredKey api_key = .ok ())
    (hcontact : contactEmailable (some contact) = true)
    (hfail : send_email env = .error emsg) :
    send_notification env product price links (some contact) api_key true
      = (true, [.stdout (some contact)]) := by
  unfold send_notification send_notification_body
  simp [hval, hcontact, hfail]

/-- Witness for C8: Resend is configured but its send raises; the dispatch
still returns true with the stdout fallback. -/
theorem c8_email_failure_falls_back_witness :
    send_notification ⟨some "k", true, .error "boom"⟩ "airpods 2nd gen" 120
        (.inr ["https://shop.example/a"]) (some "u@example.com") (some "k")
        true
      = (true, [.stdout (some "u@example.com")]) := by
  exact c8_email_failure_falls_back ⟨some "k", true, .error "boom"⟩
    "airpods 2nd gen" 120 (.inr ["https://shop.example/a"]) "u@example.com"
    (some "k") "boom" rfl (by decide) rfl

/-- C9 counterexample: a state whose search result carries no price and
whose previously computed suggested budget is 0 reaches notify_agent, which
then makes no dispatch at all (the truthiness guard on the substituted
price fails), while the claim asserts the dispatcher proceeds with the
suggested budget as the displayed price. -/
theorem c9_counterexample_zero_budget_no_dispatch :
    (notify_agent ⟨some "k", false, .ok ()⟩
        { product := some "airpods 2nd gen", timeframe := some "2025-10-21",
          suggested_budget := some 0,
          search_result := some (.text "No matching listing found today.") }).2
      = none := by
  decide

/-- C9 amended: when the search result carries no price, notify_agent
substitutes the previously computed suggested budget (default 0) as the
displayed price; it dispatches exactly when the product name is truthy and
that substituted price is nonzero, and in every case it still returns a
state (notification_sent is always set — the stage never raises on a
missing price). -/
theorem c9_price_fallback (env : NotifyEnv) (s : FinanceState)
    (h : isFoundShaped s.search_result = false) :
    (((optStrTruthy s.product && decide ((s.suggested_budget).getD 0 ≠ 0))
        = true →
        (notify_agent env s).2
          = some ⟨(s.product).getD "", (s.suggested_budget).getD 0, []⟩)
      ∧ ((optStrTruthy s.product && decide ((s.suggested_budget).getD 0 ≠ 0))
        = false →
        (notify_agent env s).2 = none))
    ∧ ((notify_agent env s).1.notification_sent).isSome = true := by
  have hcase : s.search_result = none ∨ ∃ t, s.search_result = some (.text t) := by
    rcases hsr : s.search_result with _ | r
    · exact Or.inl rfl
    · cases r with
      | found pn p u m => rw [hsr] at h; simp [isFoundShaped] at h
      | text t => exact Or.inr ⟨t, rfl⟩
  rcases hcase with hsr | ⟨t, hsr⟩ <;>
    · refine ⟨⟨?_, ?_⟩, ?_⟩
      · intro hg
        simp only [Bool.and_eq_true, decide_eq_true_eq] at hg
        simp [notify_agent, hsr, hg.1, hg.2]
      · intro hg
        simp at hg
        by_cases hp : optStrTruthy s.product = true
        · simp [notify_agent, hsr, hp, hg hp]
        · simp [notify_agent, hsr, hp]
      · simp [notify_agent, hsr]

/-- Witness for C9 (amended) at a concrete state with a plain-text search
result and suggested budget 120: the dispatch carries price 120. -/
theorem c9_price_fallback_witness :
    (notify_agent ⟨some "k", false, .ok ()⟩
        { product := some "airpods 2nd gen", timeframe := some "2025-10-21",
          suggested_budget := some 120,
          search_result := some (.text "No matching listing found today.") }).2
      = some ⟨"airpods 2nd gen", 120, []⟩ := by
  have h := (c9_price_fallback ⟨some "k", false, .ok ()⟩
      { product := some "airpods 2nd gen", timeframe := some "2025-10-21",
        suggested_budget := some 120,
        search_result := some (.text "No matching listing found today.") }
      (by decide)).1.1 (by decide)
  simpa using h

end FinanceAi
